import Mathlib

/-!
Verification of the AquaGuard river-ecosystem simulation engine
(`update_simulation` / `trigger_weather` in `app.py`).

The engine's state is embedded over exact rationals (`ℚ`): every arithmetic
operation of the source (addition, multiplication by decimal constants,
`max`/`min` clamps) maps to the corresponding exact operation on `ℚ`, and the
integer score and eco-point counters to `ℤ`.  The ambient weather draw
(`random.choices` inside `trigger_weather`) is modelled as an explicit
`Weather` argument: each `update_simulation` call consumes exactly one draw.
-/

/-- The ecosystem health classification strings of the source
(`"Healthy"`, `"Stressed"`, `"Critical"`), as a closed enum. -/
inductive Health where
  | Healthy
  | Stressed
  | Critical
deriving Repr, DecidableEq

/-- The weather event strings of the source
(`"Sunny"`, `"Heavy Rain"`, `"Drought"`, `"Flash Flood"`), as a closed enum. -/
inductive Weather where
  | Sunny
  | HeavyRain
  | Drought
  | FlashFlood
deriving Repr, DecidableEq

/-- The water-quality parameter record held in
`st.session_state.params` (source lines 102-112). -/
structure Params where
  do_ : ℚ
  ph : ℚ
  nitrates : ℚ
  toxins : ℚ
  turbidity : ℚ
  algae : ℚ
  plants : ℚ
  score : ℤ
  eco_points : ℤ
deriving Repr, DecidableEq

/-- The session state the engine reads and writes:
water parameters, day counter, cached classification, last weather draw. -/
structure SimState where
  params : Params
  day : ℕ
  ecosystem_state : Health
  last_weather : Weather
deriving Repr, DecidableEq

/-- The per-step pollution inputs `{factory, farm, urban}` (source line 120). -/
structure PollutionInputs where
  factory : ℚ
  farm : ℚ
  urban : ℚ
deriving Repr, DecidableEq

/-- The per-step policy flags `{treatment, organic, regulation, cleanup}`
(source line 121). -/
structure Policies where
  treatment : Bool
  organic : Bool
  regulation : Bool
  cleanup : Bool
deriving Repr, DecidableEq

/-- Initial water parameters (source lines 102-112). -/
def initial_params : Params :=
  { do_ := 8.0
    ph := 7.0
    nitrates := 2.0
    toxins := 0.0
    turbidity := 5.0
    algae := 10.0
    plants := 100.0
    score := 100
    eco_points := 0 }

/-- Initial session state (source lines 97-116). -/
def initial_state : SimState :=
  { params := initial_params
    day := 0
    ecosystem_state := Health.Healthy
    last_weather := Weather.Sunny }

/-- Side effects of a weather event on the parameters
(`trigger_weather`, source lines 207-223): Heavy Rain adds 2.0 nitrates,
Drought multiplies toxins by 1.2 and subtracts 1.0 dissolved oxygen,
Flash Flood adds 1.0 dissolved oxygen and 1.0 toxins, Sunny does nothing. -/
def trigger_weather (event : Weather) (p : Params) : Params :=
  match event with
  | Weather.Sunny => p
  | Weather.HeavyRain => { p with nitrates := p.nitrates + 2.0 }
  | Weather.Drought => { p with toxins := p.toxins * 1.2, do_ := p.do_ - 1.0 }
  | Weather.FlashFlood => { p with do_ := p.do_ + 1.0, toxins := p.toxins + 1.0 }

/-- Stage 1, "Natural Processes (Base Decay/Regeneration)"
(source lines 124-127). -/
def natural_processes (p : Params) : Params :=
  { p with
    do_ := p.do_ + (8.5 - p.do_) * 0.15
    nitrates := p.nitrates * 0.92
    toxins := p.toxins * 0.85
    turbidity := p.turbidity + (5.0 - p.turbidity) * 0.2 }

/-- The toxin amount line 136 adds:
`factory * 0.6 * treat_mod * reg_mod` with `treat_mod = 0.15` when the
treatment policy is on (else 1.0) and `reg_mod = 0.4` when the regulation
policy is on (else 1.0) (source lines 130, 132, 136). -/
def toxin_injection (pollution_inputs : PollutionInputs) (policies : Policies) : ℚ :=
  pollution_inputs.factory * 0.6 * (if policies.treatment then 0.15 else 1.0)
    * (if policies.regulation then 0.4 else 1.0)

/-- Stage 2, "Policy & Pollution Impact" / "Apply Inputs"
(source lines 130-139). -/
def apply_inputs (pollution_inputs : PollutionInputs) (policies : Policies)
    (p : Params) : Params :=
  let treat_mod : ℚ := if policies.treatment then 0.15 else 1.0
  let org_mod : ℚ := if policies.organic then 0.35 else 1.0
  let reg_mod : ℚ := if policies.regulation then 0.4 else 1.0
  { p with
    toxins := p.toxins + pollution_inputs.factory * 0.6 * treat_mod * reg_mod
    nitrates := p.nitrates + pollution_inputs.farm * 0.9 * org_mod
    turbidity := p.turbidity + pollution_inputs.urban * 1.5
      + pollution_inputs.factory * 0.4 * treat_mod
    do_ := p.do_ - pollution_inputs.urban * 0.4 }

/-- Stage "Secondary Effects" (source lines 143-152): algae growth from
nitrates minus turbidity shading, clamped to [0,100]; oxygen depletion when
algae exceeds 40; plant damage from toxins and turbidity above 20, with +2
baseline regrowth, clamped to [0,100]. -/
def secondary_effects (p : Params) : Params :=
  let algae_growth := p.nitrates * 0.5 - p.turbidity * 0.1
  let algae1 := max 0 (min 100 (p.algae + algae_growth))
  let do1 := if algae1 > 40 then p.do_ - (algae1 - 40) * 0.05 else p.do_
  let plant_damage := p.toxins * 2.0 + max 0 (p.turbidity - 20) * 0.5
  { p with
    algae := algae1
    do_ := do1
    plants := max 0 (min 100 (p.plants - plant_damage + 2)) }

/-- Stage "Cleanup drive helps reduce toxins and turbidity"
(source lines 133, 155-156). -/
def cleanup_stage (policies : Policies) (p : Params) : Params :=
  let cleanup_effect : ℚ := if policies.cleanup then 2.0 else 0.0
  { p with
    toxins := max 0 (p.toxins - cleanup_effect * 0.5)
    turbidity := max 5 (p.turbidity - cleanup_effect * 2) }

/-- Stage "Bound Parameters" (source lines 159-161): clamp dissolved oxygen
to [0,12], derive pH from toxins and nitrates and clamp it to [1,14]. -/
def bound_parameters (p : Params) : Params :=
  { p with
    do_ := max 0 (min 12 p.do_)
    ph := max 1 (min 14 (7.0 + p.toxins * (-0.25) + p.nitrates * 0.15)) }

/-- Stage 3, "Ecosystem Health State" (source lines 164-169): first matching
rule wins, Critical before Stressed before Healthy. -/
def classify (p : Params) : Health :=
  if p.do_ < 2.5 ∨ p.toxins > 4.5 ∨ p.plants < 20 then Health.Critical
  else if p.do_ < 4.5 ∨ p.nitrates > 7.5 ∨ p.turbidity > 30 then Health.Stressed
  else Health.Healthy

/-- Daily eco-points awarded per classification (source lines 172-181). -/
def daily_points : Health → ℤ
  | Health.Healthy => 10
  | Health.Stressed => 2
  | Health.Critical => 0

/-- Score penalty per classification (source lines 172-181);
negative for Healthy, so the score rises. -/
def penalties : Health → ℤ
  | Health.Healthy => -2
  | Health.Stressed => 5
  | Health.Critical => 15

/-- Stage 4, "Score & Eco-Points" (source lines 183-184). -/
def apply_score (h : Health) (p : Params) : Params :=
  { p with
    eco_points := p.eco_points + daily_points h
    score := max 0 (min 100 (p.score - penalties h)) }

/-- Everything `update_simulation` does before the weather draw:
stages 1 through 4 of the source, leaving `day` and `last_weather`
untouched (source lines 123-196). -/
def update_core (pollution_inputs : PollutionInputs) (policies : Policies)
    (s : SimState) : SimState :=
  let p1 := bound_parameters (cleanup_stage policies
    (secondary_effects (apply_inputs pollution_inputs policies
      (natural_processes s.params))))
  let h := classify p1
  { s with params := apply_score h p1, ecosystem_state := h }

/-- One full engine step (`update_simulation`, source lines 119-204), with the
weather draw made explicit: natural processes, policy and pollution impact,
secondary effects, cleanup, bounding and derived pH, classification, scoring,
then the weather side effects, then `day += 1`.  The history append
(lines 187-196) and event log are caller-visible output only and carry no
engine state, so they are not part of the state record. -/
def update_simulation (pollution_inputs : PollutionInputs) (policies : Policies)
    (event : Weather) (s : SimState) : SimState :=
  let c := update_core pollution_inputs policies s
  { c with
    params := trigger_weather event c.params
    last_weather := event
    day := c.day + 1 }

/-- Run a list of daily (inputs, policies, weather draw) triples from a
starting state: the reachable states of the engine are exactly the states
`run_steps initial_state trace` for some trace. -/
def run_steps : SimState → List (PollutionInputs × Policies × Weather) → SimState
  | s, [] => s
  | s, (i, pol, w) :: rest => run_steps (update_simulation i pol w s) rest

/-- Harsh inputs: all three pollution sliders at their maximum 10. -/
def harsh_inputs : PollutionInputs := { factory := 10, farm := 10, urban := 10 }

/-- All four policies off. -/
def no_policies : Policies :=
  { treatment := false, organic := false, regulation := false, cleanup := false }

/-- Three days of maximal pollution under Sunny weather followed by one more
under a Drought draw: a concrete reachable trace. -/
def drought_trace : List (PollutionInputs × Policies × Weather) :=
  [(harsh_inputs, no_policies, Weather.Sunny),
   (harsh_inputs, no_policies, Weather.Sunny),
   (harsh_inputs, no_policies, Weather.Sunny),
   (harsh_inputs, no_policies, Weather.Drought)]

/-! ## Helper lemmas -/

/-- A two-sided clamp `max a (min b x)` lands in `[a, b]` whenever `a ≤ b`. -/
lemma clamp_mem {α : Type} [LinearOrder α] {a b : α} (x : α) (h : a ≤ b) :
    a ≤ max a (min b x) ∧ max a (min b x) ≤ b :=
  ⟨le_max_left _ _, max_le h (min_le_left _ _)⟩

/-- Daily eco-points are never negative, whatever the classification. -/
lemma daily_points_nonneg (h : Health) : 0 ≤ daily_points h := by
  cases h <;> decide

/-- The pre-weather state satisfies every clamp: pH in [1,14], algae and
plants and score in [0,100], turbidity at least 5, dissolved oxygen in
[0,12]. -/
lemma update_core_bounds (i : PollutionInputs) (pol : Policies) (s : SimState) :
    (1 ≤ (update_core i pol s).params.ph ∧ (update_core i pol s).params.ph ≤ 14) ∧
    (0 ≤ (update_core i pol s).params.algae ∧ (update_core i pol s).params.algae ≤ 100) ∧
    (0 ≤ (update_core i pol s).params.plants ∧ (update_core i pol s).params.plants ≤ 100) ∧
    (0 ≤ (update_core i pol s).params.score ∧ (update_core i pol s).params.score ≤ 100) ∧
    5 ≤ (update_core i pol s).params.turbidity ∧
    (0 ≤ (update_core i pol s).params.do_ ∧ (update_core i pol s).params.do_ ≤ 12) := by
  refine ⟨clamp_mem _ (by norm_num), clamp_mem _ (by norm_num),
    clamp_mem _ (by norm_num), clamp_mem _ (by norm_num),
    le_max_left _ _, clamp_mem _ (by norm_num)⟩

/-! ## Claim theorems -/

/-- C3: the health classification computed by a step is a deterministic
function of the post-update parameter values, decided by first-matching rule
in priority order Critical (do < 2.5 or toxins > 4.5 or plants < 20), then
Stressed (do < 4.5 or nitrates > 7.5 or turbidity > 30), then Healthy;
checked also on the spec's boundary examples. -/
theorem c3_classification_deterministic (i : PollutionInputs) (pol : Policies)
    (w : Weather) (s : SimState) :
    ((update_simulation i pol w s).ecosystem_state
        = classify (update_core i pol s).params) ∧
    (∀ p : Params, classify p =
      if p.do_ < 2.5 ∨ p.toxins > 4.5 ∨ p.plants < 20 then Health.Critical
      else if p.do_ < 4.5 ∨ p.nitrates > 7.5 ∨ p.turbidity > 30 then Health.Stressed
      else Health.Healthy) ∧
    classify { initial_params with do_ := 2.4, nitrates := 0 } = Health.Critical ∧
    classify { initial_params with do_ := 4.4, nitrates := 5 } = Health.Stressed ∧
    classify { initial_params with do_ := 8 } = Health.Healthy :=
  ⟨rfl, fun _ => rfl, by norm_num [classify, initial_params],
    by norm_num [classify, initial_params], by norm_num [classify, initial_params]⟩

/-- C4: the classification alone determines the scoring: Healthy gives
daily points +10 and penalty −2, Stressed +2 and +5, Critical +0 and +15;
eco-points grow by the daily points and the score becomes
`clamp(score − penalty, 0, 100)`. -/
theorem c4_scoring (i : PollutionInputs) (pol : Policies) (w : Weather)
    (s : SimState) :
    ((update_simulation i pol w s).params.eco_points
        = s.params.eco_points
          + daily_points (update_simulation i pol w s).ecosystem_state) ∧
    ((update_simulation i pol w s).params.score
        = max 0 (min 100 (s.params.score
          - penalties (update_simulation i pol w s).ecosystem_state))) ∧
    daily_points Health.Healthy = 10 ∧ penalties Health.Healthy = -2 ∧
    daily_points Health.Stressed = 2 ∧ penalties Health.Stressed = 5 ∧
    daily_points Health.Critical = 0 ∧ penalties Health.Critical = 15 := by
  refine ⟨?_, ?_, rfl, rfl, rfl, rfl, rfl, rfl⟩ <;> cases w <;> rfl

/-- C5: every step increments the day counter by exactly 1 and never
decreases the eco-point accumulator. -/
theorem c5_monotone_day_points (i : PollutionInputs) (pol : Policies)
    (w : Weather) (s : SimState) :
    (update_simulation i pol w s).day = s.day + 1 ∧
    s.params.eco_points ≤ (update_simulation i pol w s).params.eco_points := by
  constructor
  · rfl
  · have h : (update_simulation i pol w s).params.eco_points
        = s.params.eco_points
          + daily_points (classify (bound_parameters (cleanup_stage pol
            (secondary_effects (apply_inputs i pol
              (natural_processes s.params)))))) := by
      cases w <;> rfl
    rw [h]
    have := daily_points_nonneg (classify (bound_parameters (cleanup_stage pol
      (secondary_effects (apply_inputs i pol (natural_processes s.params))))))
    omega

/-- C6: from the initial state, one step with all pollution sliders at 0,
all policies off and a Sunny draw gives dissolved oxygen 8.075, nitrates
1.84, toxins 0, turbidity 5, classification Healthy, score clamped at 100,
eco-points 10 and day 1. -/
theorem c6_day0_baseline :
    ((update_simulation { factory := 0, farm := 0, urban := 0 } no_policies
        Weather.Sunny initial_state).params.do_ = 8.075) ∧
    ((update_simulation { factory := 0, farm := 0, urban := 0 } no_policies
        Weather.Sunny initial_state).params.nitrates = 1.84) ∧
    ((update_simulation { factory := 0, farm := 0, urban := 0 } no_policies
        Weather.Sunny initial_state).params.toxins = 0) ∧
    ((update_simulation { factory := 0, farm := 0, urban := 0 } no_policies
        Weather.Sunny initial_state).params.turbidity = 5.0) ∧
    ((update_simulation { factory := 0, farm := 0, urban := 0 } no_policies
        Weather.Sunny initial_state).ecosystem_state = Health.Healthy) ∧
    ((update_simulation { factory := 0, farm := 0, urban := 0 } no_policies
        Weather.Sunny initial_state).params.score = 100) ∧
    ((update_simulation { factory := 0, farm := 0, urban := 0 } no_policies
        Weather.Sunny initial_state).params.eco_points = 10) ∧
    ((update_simulation { factory := 0, farm := 0, urban := 0 } no_policies
        Weather.Sunny initial_state).day = 1) := by
  norm_num [update_simulation, update_core, bound_parameters, cleanup_stage,
    secondary_effects, apply_inputs, natural_processes, apply_score, classify,
    daily_points, penalties, trigger_weather, no_policies, initial_state,
    initial_params]

/-- C7: with factory output 10 and both the wastewater-treatment and
emission-regulation policies on, the pollution-injection stage adds exactly
10 × 0.6 × 0.15 × 0.4 = 0.36 toxins (whatever the rest of the state and
inputs), versus 6.0 with no policies: the modifiers compose
multiplicatively. -/
theorem c7_policy_mitigation (p : Params) (farm urban : ℚ) (org cl : Bool) :
    ((apply_inputs { factory := 10, farm := farm, urban := urban }
        { treatment := true, organic := org, regulation := true, cleanup := cl }
        p).toxins = p.toxins + 0.36) ∧
    toxin_injection { factory := 10, farm := farm, urban := urban }
      { treatment := true, organic := org, regulation := true, cleanup := cl }
      = 0.36 ∧
    toxin_injection { factory := 10, farm := farm, urban := urban }
      no_policies = 6.0 := by
  refine ⟨?_, by norm_num [toxin_injection], by norm_num [toxin_injection, no_policies]⟩
  show p.toxins + 10 * 0.6 * 0.15 * 0.4 = p.toxins + 0.36
  norm_num

/-- C8: the step function is total: for every state, pollution inputs,
policy flags and weather draw it produces a result state; no input is
rejected and no error condition exists. -/
theorem c8_step_total (i : PollutionInputs) (pol : Policies) (w : Weather)
    (s : SimState) :
    ∃ t : SimState, update_simulation i pol w s = t :=
  ⟨update_simulation i pol w s, rfl⟩

/-- C1 (amended): after every step, pH is in [1,14], algae in [0,100],
plants in [0,100], score in [0,100] and turbidity at least 5; dissolved
oxygen is in [0,12] whenever the weather draw is Sunny or Heavy Rain, and in
general only in [-1,13], because the Drought and Flash Flood side effects
land after the bounding pass and are not re-clamped. -/
theorem c1_bounds (i : PollutionInputs) (pol : Policies) (w : Weather)
    (s : SimState) :
    (1 ≤ (update_simulation i pol w s).params.ph ∧
      (update_simulation i pol w s).params.ph ≤ 14) ∧
    (0 ≤ (update_simulation i pol w s).params.algae ∧
      (update_simulation i pol w s).params.algae ≤ 100) ∧
    (0 ≤ (update_simulation i pol w s).params.plants ∧
      (update_simulation i pol w s).params.plants ≤ 100) ∧
    (0 ≤ (update_simulation i pol w s).params.score ∧
      (update_simulation i pol w s).params.score ≤ 100) ∧
    5 ≤ (update_simulation i pol w s).params.turbidity ∧
    (-1 ≤ (update_simulation i pol w s).params.do_ ∧
      (update_simulation i pol w s).params.do_ ≤ 13) ∧
    ((w = Weather.Sunny ∨ w = Weather.HeavyRain) →
      0 ≤ (update_simulation i pol w s).params.do_ ∧
        (update_simulation i pol w s).params.do_ ≤ 12) := by
  obtain ⟨hph, halgae, hplants, hscore, hturb, hdo⟩ := update_core_bounds i pol s
  cases w
  case Sunny =>
    refine ⟨hph, halgae, hplants, hscore, hturb, ?_, fun _ => hdo⟩
    show (-1 : ℚ) ≤ (update_core i pol s).params.do_ ∧
      (update_core i pol s).params.do_ ≤ 13
    constructor <;> linarith [hdo.1, hdo.2]
  case HeavyRain =>
    refine ⟨hph, halgae, hplants, hscore, hturb, ?_, fun _ => hdo⟩
    show (-1 : ℚ) ≤ (update_core i pol s).params.do_ ∧
      (update_core i pol s).params.do_ ≤ 13
    constructor <;> linarith [hdo.1, hdo.2]
  case Drought =>
    refine ⟨hph, halgae, hplants, hscore, hturb, ?_, ?_⟩
    · show -1 ≤ (update_core i pol s).params.do_ - 1.0 ∧
        (update_core i pol s).params.do_ - 1.0 ≤ 13
      constructor <;> · norm_num; linarith [hdo.1, hdo.2]
    · rintro (h | h) <;> exact Weather.noConfusion h
  case FlashFlood =>
    refine ⟨hph, halgae, hplants, hscore, hturb, ?_, ?_⟩
    · show -1 ≤ (update_core i pol s).params.do_ + 1.0 ∧
        (update_core i pol s).params.do_ + 1.0 ≤ 13
      constructor <;> · norm_num; linarith [hdo.1, hdo.2]
    · rintro (h | h) <;> exact Weather.noConfusion h

/-- Witness for C1 (amended) at concrete inputs, discharging the
Sunny-or-HeavyRain hypothesis of its final conjunct. -/
theorem c1_bounds_witness :
    0 ≤ (update_simulation harsh_inputs no_policies Weather.Sunny
        initial_state).params.do_ ∧
    (update_simulation harsh_inputs no_policies Weather.Sunny
        initial_state).params.do_ ≤ 12 ∧
    5 ≤ (update_simulation harsh_inputs no_policies Weather.Sunny
        initial_state).params.turbidity := by
  obtain ⟨-, -, -, -, hturb, -, himp⟩ :=
    c1_bounds harsh_inputs no_policies Weather.Sunny initial_state
  obtain ⟨h1, h2⟩ := himp (Or.inl rfl)
  exact ⟨h1, h2, hturb⟩

/-- Counterexample to C1 as stated: after three days of maximal pollution
under Sunny weather and a fourth under a Drought draw — a reachable
trajectory from the initial state — the stored dissolved oxygen is negative
(it is exactly -1), outside the claimed [0,12]. -/
theorem c1_counterexample :
    (run_steps initial_state drought_trace).params.do_ < 0 := by
  norm_num [run_steps, drought_trace, harsh_inputs, update_simulation,
    update_core, bound_parameters, cleanup_stage, secondary_effects,
    apply_inputs, natural_processes, apply_score, classify, daily_points,
    penalties, trigger_weather, no_policies, initial_state, initial_params]

/-- C2: a step factors as the weather-free core (natural recovery, policy,
pollution, secondary ecology, cleanup, bounding, classification, scoring)
followed by exactly one application of the weather draw's side effects and
the day increment; the side effects are plain unclamped updates: Heavy Rain
adds 2.0 nitrates, Drought multiplies toxins by 1.2 and subtracts 1.0
dissolved oxygen, Flash Flood adds 1.0 dissolved oxygen and 1.0 toxins,
Sunny changes nothing. -/
theorem c2_weather_ordering (i : PollutionInputs) (pol : Policies)
    (w : Weather) (s : SimState) :
    (update_simulation i pol w s =
      { params := trigger_weather w (update_core i pol s).params,
        day := s.day + 1,
        ecosystem_state := (update_core i pol s).ecosystem_state,
        last_weather := w }) ∧
    (∀ p : Params, trigger_weather Weather.Sunny p = p) ∧
    (∀ p : Params, trigger_weather Weather.HeavyRain p
      = { p with nitrates := p.nitrates + 2.0 }) ∧
    (∀ p : Params, trigger_weather Weather.Drought p
      = { p with toxins := p.toxins * 1.2, do_ := p.do_ - 1.0 }) ∧
    (∀ p : Params, trigger_weather Weather.FlashFlood p
      = { p with do_ := p.do_ + 1.0, toxins := p.toxins + 1.0 }) :=
  ⟨rfl, fun _ => rfl, fun _ => rfl, fun _ => rfl, fun _ => rfl⟩

/-- C9: with factory output 0 and a Sunny draw, whatever the other inputs
and policies, a step can only shrink a nonnegative toxin level: the result
is at most 0.85 times the old value. -/
theorem c9_toxin_contraction (pol : Policies) (farm urban : ℚ) (s : SimState)
    (ht : 0 ≤ s.params.toxins) :
    (update_simulation { factory := 0, farm := farm, urban := urban } pol
        Weather.Sunny s).params.toxins ≤ 0.85 * s.params.toxins := by
  have hce : (0 : ℚ) ≤ (if pol.cleanup = true then (2.0 : ℚ) else 0.0) := by
    split <;> norm_num
  show max 0 (s.params.toxins * 0.85
      + 0 * 0.6 * (if pol.treatment = true then (0.15 : ℚ) else 1.0)
        * (if pol.regulation = true then (0.4 : ℚ) else 1.0)
      - (if pol.cleanup = true then (2.0 : ℚ) else 0.0) * 0.5)
    ≤ 0.85 * s.params.toxins
  apply max_le
  · linarith
  · nlinarith [hce]

/-- Witness for C9 at concrete inputs. -/
theorem c9_toxin_contraction_witness :
    (0 ≤ initial_state.params.toxins) ∧
    (update_simulation { factory := 0, farm := 3, urban := 1 } no_policies
        Weather.Sunny initial_state).params.toxins
      ≤ 0.85 * initial_state.params.toxins :=
  ⟨by norm_num [initial_state, initial_params],
    c9_toxin_contraction no_policies 3 1 initial_state
      (by norm_num [initial_state, initial_params])⟩

/-- C10: the pH stored after a step is the clamp to [1,14] of
7.0 − 0.25 × toxins + 0.15 × nitrates taken at the PRE-weather values, for
every weather draw: weather-induced changes to toxins or nitrates are never
reflected in the pH stored by the same step. -/
theorem c10_ph_preweather (i : PollutionInputs) (pol : Policies) (w : Weather)
    (s : SimState) :
    ((update_simulation i pol w s).params.ph =
      max 1 (min 14 (7.0 - 0.25 * (update_core i pol s).params.toxins
        + 0.15 * (update_core i pol s).params.nitrates))) ∧
    (update_simulation i pol w s).params.ph
      = (update_simulation i pol Weather.Sunny s).params.ph := by
  have hph : ∀ w' : Weather, (update_simulation i pol w' s).params.ph
      = (update_core i pol s).params.ph := by
    intro w'; cases w' <;> rfl
  constructor
  · rw [hph]
    have hform : (update_core i pol s).params.ph
        = max 1 (min 14 (7.0 + (update_core i pol s).params.toxins * (-0.25)
          + (update_core i pol s).params.nitrates * 0.15)) := rfl
    rw [hform]
    have harg : (7.0 + (update_core i pol s).params.toxins * (-0.25)
          + (update_core i pol s).params.nitrates * 0.15 : ℚ)
        = 7.0 - 0.25 * (update_core i pol s).params.toxins
          + 0.15 * (update_core i pol s).params.nitrates := by ring
    rw [harg]
  · rw [hph, hph]
